import Mathlib

/-!
Shallow embedding of pinocchio/spec.py (a nose plugin that renders test
names as a colorized specification narrative).

Python strings are modelled as List Char (`Str`), Python objects as records
carrying the attributes the plugin reads plus an `mro` list that interprets
isinstance.  Functions that can raise are Option-valued (none = exception).
-/

namespace Pinocchio

abbrev Str := List Char

/-- Python types the plugin dispatches on via isinstance. -/
inductive PyType where
  | noseMethodTestCase
  | noseFunctionTestCase
  | docTestCase
  | unittestTestCase
  | moduleType
  | functionType
  | classType
  | typeType
  | deprecatedTest
  | skipTest
  | exceptionType
deriving DecidableEq, Repr

/-- A doctest example: fields read by doctestExamplesDescription. -/
structure DocExample where
  source : Str
  want : Str := []
  exc_msg : Option Str := none
deriving DecidableEq, Repr

/-- Attributes of a Python object that spec.py reads.  `mro` holds every
type the object is an isinstance member of; `doc` is the result of
inspect.getdoc. -/
structure PyBase where
  mro : List PyType := []
  name : Str := []
  doc : Option Str := none
  dtName : Str := []
  examples : List DocExample := []
  methodName : Str := []
  methodDoc : Option Str := none
  testMethodName : Str := []
  testMethodDoc : Option Str := none
  funcName : Str := []
  funcDoc : Option Str := none
  genDesc : Option Str := none
  arg : List Str := []
deriving DecidableEq, Repr

/-- A Python object: its attributes plus an optional `descriptor`
attribute (itself an object, e.g. the generator function of a nose test
generator). -/
structure PyObj where
  base : PyBase
  descriptor : Option PyBase := none
deriving DecidableEq, Repr

def PyBase.lift (b : PyBase) : PyObj := ⟨b, none⟩

def PyObj.mro (o : PyObj) : List PyType := o.base.mro
def PyObj.name (o : PyObj) : Str := o.base.name
def PyObj.doc (o : PyObj) : Option Str := o.base.doc
def PyObj.dtName (o : PyObj) : Str := o.base.dtName
def PyObj.examples (o : PyObj) : List DocExample := o.base.examples
def PyObj.methodName (o : PyObj) : Str := o.base.methodName
def PyObj.methodDoc (o : PyObj) : Option Str := o.base.methodDoc
def PyObj.testMethodName (o : PyObj) : Str := o.base.testMethodName
def PyObj.testMethodDoc (o : PyObj) : Option Str := o.base.testMethodDoc
def PyObj.funcName (o : PyObj) : Str := o.base.funcName
def PyObj.funcDoc (o : PyObj) : Option Str := o.base.funcDoc
def PyObj.genDesc (o : PyObj) : Option Str := o.base.genDesc
def PyObj.arg (o : PyObj) : List Str := o.base.arg

/-- isinstance(o, t) in the model: membership of t among the types of o. -/
def isinstance (o : PyObj) (t : PyType) : Bool := o.mro.contains t

/-- The nose test wrapper handed to the plugin hooks: its `.test` inner
case object and its `.context`. -/
structure TestWrapper where
  test : PyObj
  context : PyObj
deriving DecidableEq, Repr

/-- A key of a dispatch table: either a Python type or the literal True. -/
inductive TypeKey where
  | isTrue
  | ofType (t : PyType)
deriving DecidableEq, Repr

def typeMatches (k : TypeKey) (o : PyObj) : Bool :=
  match k with
  | .isTrue => true
  | .ofType t => isinstance o t

/-! ### Python string primitives -/

/-- Truthiness of a Python value that is None or a string: `x or y`. -/
def pyOrStr (a : Option Str) (b : Str) : Str :=
  match a with
  | some s => if s.isEmpty then b else s
  | none => b

/-- str.replace: replace every non-overlapping occurrence of pat, scanning
left to right.  Fuel-structured so that it computes by reduction; the fuel
is the length of the subject, which bounds the recursion depth. -/
def pyReplaceAux (pat rep : Str) : Nat → Str → Str
  | _, [] => []
  | 0, s => s
  | fuel + 1, c :: rest =>
    if !pat.isEmpty && pat.isPrefixOf (c :: rest) then
      rep ++ pyReplaceAux pat rep fuel ((c :: rest).drop pat.length)
    else
      c :: pyReplaceAux pat rep fuel rest

def pyReplace (pat rep s : Str) : Str := pyReplaceAux pat rep s.length s

/-- Python whitespace (the characters stripped by str.strip in Python 2). -/
def isPyWS (c : Char) : Bool :=
  c = ' ' || c = '\t' || c = '\n' || c = '\r' || c = '\x0b' || c = '\x0c'

def pyLstrip (s : Str) : Str := s.dropWhile isPyWS
def pyRstrip (s : Str) : Str := (s.reverse.dropWhile isPyWS).reverse
def pyStrip (s : Str) : Str := pyRstrip (pyLstrip s)

/-- str.capitalize (Python 2): first character uppercased, the rest
lowercased. -/
def pyCapitalize (s : Str) : Str :=
  match s with
  | [] => []
  | c :: rest => c.toUpper :: rest.map Char.toLower

/-- haystack[-n:] for n possibly 0 (Python slicing). -/
def pyTakeLast (n : Nat) (l : Str) : Str :=
  if n = 0 then l else l.drop (l.length - n)

/-- haystack[:-n] for n possibly 0 (Python slicing). -/
def pyDropLast (n : Nat) (l : Str) : Str :=
  if n = 0 then [] else l.take (l.length - n)

/-- s.rsplit(c, 1) when c occurs in s: the parts before and after the last
occurrence.  Returns none when c does not occur. -/
def pyRsplit1 (ch : Char) : Str → Option (Str × Str)
  | [] => none
  | c :: rest =>
    match pyRsplit1 ch rest with
    | some (pre, post) => some (c :: pre, post)
    | none => if c = ch then some ([], rest) else none

/-- ", ".join -/
def joinCommaSp (l : List Str) : Str := (l.intersperse ", ".data).flatten

/-- str.splitlines(True): split on the line boundaries of Python 2 byte
strings (LF, CR, CRLF), keeping each terminator with its line. -/
def splitlinesAux : Str → Str → List Str
  | acc, [] => if acc.isEmpty then [] else [acc.reverse]
  | acc, '\r' :: '\n' :: rest => (acc.reverse ++ ['\r', '\n']) :: splitlinesAux [] rest
  | acc, '\r' :: rest => (acc.reverse ++ ['\r']) :: splitlinesAux [] rest
  | acc, '\n' :: rest => (acc.reverse ++ ['\n']) :: splitlinesAux [] rest
  | acc, c :: rest => splitlinesAux (c :: acc) rest

def pySplitlinesKeepends (s : Str) : List Str := splitlinesAux [] s

/-! ### Specification-building functions (spec.py lines 110-273) -/

/-- dispatch_on_type: return func(instance) for the first table entry whose
key is the literal True or a type of which instance is an isinstance
member; None when the loop falls through. -/
def dispatch_on_type {α : Type} (table : List (TypeKey × (PyObj → α))) (inst : PyObj) :
    Option α :=
  match table with
  | [] => none
  | (k, f) :: rest =>
    if typeMatches k inst then some (f inst) else dispatch_on_type rest inst

/-- remove_leading: haystack[len(needle):] when haystack[:len(needle)] ==
needle, else haystack. -/
def remove_leading (needle haystack : Str) : Str :=
  if haystack.take needle.length = needle then haystack.drop needle.length else haystack

/-- remove_trailing: haystack[:-len(needle)] when haystack[-len(needle):]
== needle, else haystack. -/
def remove_trailing (needle haystack : Str) : Str :=
  if pyTakeLast needle.length haystack = needle then pyDropLast needle.length haystack
  else haystack

def remove_leading_and_trailing (needle haystack : Str) : Str :=
  remove_leading needle (remove_trailing needle haystack)

/-- re.sub substitution applied to string[1:]: every ASCII uppercase letter
is rewritten to a space followed by its lowercase form. -/
def camel2wordRest : Str → Str
  | [] => []
  | c :: rest =>
    (if 'A' ≤ c && c ≤ 'Z' then [' ', c.toLower] else [c]) ++ camel2wordRest rest

/-- camel2word: string[0] + re.sub(r'([A-Z])', wordize, string[1:]).
Indexing string[0] raises IndexError on the empty string, modelled as
none. -/
def camel2word : Str → Option Str
  | [] => none
  | c :: rest => some (c :: camel2wordRest rest)

/-- complete_english: the four contraction replacements applied in order
by str.replace. -/
def complete_english (s : Str) : Str :=
  [("dont".data, "don\x27t".data),
   ("doesnt".data, "doesn\x27t".data),
   ("wont".data, "won\x27t".data),
   ("wasnt".data, "wasn\x27t".data)].foldl
    (fun acc p => pyReplace p.1 p.2 acc) s

def underscore2word (s : Str) : Str := pyReplace "_".data " ".data s

def underscored2spec (name : Str) : Str :=
  complete_english (underscore2word (remove_trailing "_test".data
    (remove_leading "test_".data name)))

/-- camelcase2spec: camel2word after stripping a leading and trailing
"Test"; none = IndexError from camel2word. -/
def camelcase2spec (name : Str) : Option Str :=
  camel2word (remove_leading_and_trailing "Test".data name)

/-- camelcaseDescription: getdoc(object) or camelcase2spec(object.name);
none = IndexError. -/
def camelcaseDescription (o : PyObj) : Option Str :=
  match o.doc with
  | some d => if d.isEmpty then camelcase2spec o.name else some d
  | none => camelcase2spec o.name

def underscoredDescription (o : PyObj) : Str :=
  pyOrStr o.doc (pyCapitalize (underscored2spec o.name))

def doctestContextDescription (o : PyObj) : Str := o.dtName

def noseMethodDescription (o : PyObj) : Str :=
  pyOrStr o.methodDoc (underscored2spec o.methodName)

def unittestMethodDescription (o : PyObj) : Str :=
  pyOrStr o.testMethodDoc (underscored2spec o.testMethodName)

def noseFunctionDescription (o : PyObj) : Str :=
  if o.descriptor.isSome then
    match o.genDesc with
    | some d => d
    | none => "holds for ".data ++ joinCommaSp o.arg
  else pyOrStr o.funcDoc (underscored2spec o.funcName)

/-- One doctest example turned into an optional specification line,
following the body of the loop in doctestExamplesDescription. -/
def doctestExampleLine (ex : DocExample) : Option Str :=
  let source := pyReplace "\n".data " ".data ex.source
  let sw : Str × Option Str :=
    match pyRsplit1 '#' source with
    | some (pre, post) => (pre, some post)
    | none =>
      match ex.exc_msg with
      | some m =>
        if m.isEmpty then
          if ex.want.isEmpty then (source, none)
          else (source, some ("returns ".data ++ pyReplace "\n".data " ".data ex.want))
        else (source, some ("throws \"".data ++ pyRstrip m ++ "\"".data))
      | none =>
        if ex.want.isEmpty then (source, none)
        else (source, some ("returns ".data ++ pyReplace "\n".data " ".data ex.want))
  match sw.2 with
  | some w =>
    if w.isEmpty then none
    else some (pyStrip sw.1 ++ " ".data ++ pyStrip w)
  | none => none

/-- doctestExamplesDescription: the generator of specification lines,
modelled as the list of the lines it yields. -/
def doctestExamplesDescription (o : PyObj) : List Str :=
  o.examples.filterMap doctestExampleLine

/-- A description value: a plain string or a generator of strings. -/
inductive Desc where
  | str (s : Str)
  | gen (l : List Str)
deriving DecidableEq, Repr

/-- testDescription: dispatch on the type of test.test in the fixed order
of supported_test_types. -/
def testDescription (t : TestWrapper) : Option Desc :=
  dispatch_on_type
    [(.ofType .noseMethodTestCase, fun o => Desc.str (noseMethodDescription o)),
     (.ofType .noseFunctionTestCase, fun o => Desc.str (noseFunctionDescription o)),
     (.ofType .docTestCase, fun o => Desc.gen (doctestExamplesDescription o)),
     (.ofType .unittestTestCase, fun o => Desc.str (unittestMethodDescription o))]
    t.test

/-- contextDescription: dispatch in the fixed order of
supported_context_types.  The table functions are Option-valued because
camelcaseDescription can raise (none = raised IndexError); the outer
Option is the dispatch falling through. -/
def contextDescription (o : PyObj) : Option (Option Str) :=
  dispatch_on_type
    [(.ofType .moduleType, fun o => some (underscoredDescription o)),
     (.ofType .functionType, fun o => some (underscoredDescription o)),
     (.ofType .docTestCase, fun o => some (doctestContextDescription o)),
     (.ofType .classType, fun o => camelcaseDescription o),
     (.ofType .typeType, fun o => camelcaseDescription o)]
    o

/-- testContext: the descriptor for nose test generators, test.test itself
for doctests, test.context otherwise. -/
def testContext (t : TestWrapper) : PyObj :=
  if isinstance t.test .noseFunctionTestCase && t.test.descriptor.isSome then
    (t.test.descriptor.getD t.test.base).lift
  else if isinstance t.test .docTestCase then t.test
  else t.context

/-! ### Output stream (spec.py lines 280-326) -/

/-- Which underlying stream `self.stream` currently points at. -/
inductive StreamSel where
  | onS
  | offS
  | captureS
deriving DecidableEq, Repr

/-- The OutputStream state: the selector plus the text so far written to
each of the three underlying streams. -/
structure StreamState where
  sel : StreamSel
  on_written : Str := []
  off_written : Str := []
  capture_written : Str := []
deriving DecidableEq, Repr

/-- write: append the text to whichever stream is selected. -/
def OutputStream.write (st : StreamState) (t : Str) : StreamState :=
  match st.sel with
  | .onS => { st with on_written := st.on_written ++ t }
  | .offS => { st with off_written := st.off_written ++ t }
  | .captureS => { st with capture_written := st.capture_written ++ t }

def OutputStream.on (st : StreamState) : StreamState := { st with sel := .onS }

def OutputStream.off (st : StreamState) : StreamState := { st with sel := .offS }

/-- print_text: self.on(); self.write(text); self.off(). -/
def SpecOutputStream.print_text (st : StreamState) (text : Str) : StreamState :=
  OutputStream.off (OutputStream.write (OutputStream.on st) text)

def SpecOutputStream.print_line (st : StreamState) (line : Str) : StreamState :=
  SpecOutputStream.print_text st (line ++ "\n".data)

/-- print_context: print_line("\n%s" % contextDescription(context)).  The
%s of a dispatch fall-through (None) formats as "None"; an exception from
the description function propagates (none). -/
def SpecOutputStream.print_context (st : StreamState) (ctx : PyObj) :
    Option StreamState :=
  match contextDescription ctx with
  | some (some d) => some (SpecOutputStream.print_line st ("\n".data ++ d))
  | some none => none
  | none => some (SpecOutputStream.print_line st ("\n".data ++ "None".data))

/-- _print_spec of SpecOutputStream: one "- spec" or "- spec (status)"
line through the colorizer. -/
def SpecOutputStream.printSpecLine (st : StreamState) (colorized : Str → Str)
    (spec : Str) (status : Option Str) : StreamState :=
  match status with
  | some stat =>
    SpecOutputStream.print_line st
      (colorized ("- ".data ++ spec ++ " (".data ++ stat ++ ")".data))
  | none => SpecOutputStream.print_line st (colorized ("- ".data ++ spec))

/-- print_spec: compute testDescription(test); iterate it when it is a
generator, print it when it is a truthy (nonempty) string, print nothing
otherwise. -/
def SpecOutputStream.print_spec (st : StreamState) (colorized : Str → Str)
    (t : TestWrapper) (status : Option Str) : StreamState :=
  match testDescription t with
  | some (.gen l) => l.foldl (fun s sp => SpecOutputStream.printSpecLine s colorized sp status) st
  | some (.str sp) => if sp.isEmpty then st else SpecOutputStream.printSpecLine st colorized sp status
  | none => st

/-! ### Color helpers (spec.py lines 332-341) -/

def color_end : Str := "\x1b[1;0m".data

/-- The colors dict. -/
def colorsLookup (c : Str) : Option Str :=
  if c = "green".data then some "\x1b[1;32m".data
  else if c = "red".data then some "\x1b[1;31m".data
  else if c = "yellow".data then some "\x1b[1;33m".data
  else none

/-- in_color: each line of text (terminator kept) wrapped between the
color escape and color_end, joined back together.  none models the
KeyError a color outside the dict would raise. -/
def in_color (color text : Str) : Option Str :=
  (colorsLookup color).map fun code =>
    ((pySplitlinesKeepends text).map fun line => code ++ line ++ color_end).flatten

/-! ### The plugin (spec.py lines 348-428) -/

/-- The mutable plugin state: the two option flags fixed by configure, the
current context, and the output stream. -/
structure Spec where
  spec_color : Bool
  spec_doctests : Bool
  current_context : Option PyObj := none
  stream : StreamState
deriving DecidableEq, Repr

/-- The colorizing function configure installs as self._colorize: identity
on text when spec-color is off, in_color otherwise.  The plugin only
instantiates it at keys of the colors dict, so the KeyError branch is
defaulted to the raw text. -/
def Spec.colorizeFn (spec_color : Bool) (color : Str) : Str → Str :=
  if spec_color then fun text => (in_color color text).getD text
  else fun text => text

def Spec.begin (p : Spec) : Spec := { p with current_context := none }

/-- _print_context: suppressed entirely for a doctest context when
spec-doctests is off. -/
def Spec._print_context (p : Spec) (ctx : PyObj) : Option StreamState :=
  if isinstance ctx .docTestCase && !p.spec_doctests then some p.stream
  else SpecOutputStream.print_context p.stream ctx

/-- beforeTest: print the context heading when the context changed, record
it, and switch the stream off.  none = an exception escaped from the
description computation. -/
def Spec.beforeTest (p : Spec) (t : TestWrapper) : Option Spec :=
  (if some (testContext t) = p.current_context then some p
   else
     match Spec._print_context p (testContext t) with
     | some st => some { p with stream := st, current_context := some (testContext t) }
     | none => none).map
    fun q => { q with stream := OutputStream.off q.stream }

/-- _print_spec of Spec: suppressed for doctest tests when spec-doctests
is off, otherwise delegates to the stream with the configured colorizer. -/
def Spec._print_spec (p : Spec) (color : Str) (t : TestWrapper)
    (status : Option Str) : Spec :=
  if isinstance t.test .docTestCase && !p.spec_doctests then p
  else
    { p with stream := (SpecOutputStream.print_spec p.stream
        (Spec.colorizeFn p.spec_color color) t status) }

def Spec.addSuccess (p : Spec) (t : TestWrapper) : Spec :=
  Spec._print_spec p "green".data t none

def Spec.addFailure (p : Spec) (t : TestWrapper) (_err : PyObj) : Spec :=
  Spec._print_spec p "red".data t (some "FAILED".data)

/-- addError: dispatch on the type of the raised exception err[1]; the
table maps DeprecatedTest, SkipTest and the catch-all True key to
_print_spec calls. -/
def Spec.addError (p : Spec) (t : TestWrapper) (errVal : PyObj) : Spec :=
  (dispatch_on_type
    [(.ofType .deprecatedTest, fun _ => Spec._print_spec p "yellow".data t (some "DEPRECATED".data)),
     (.ofType .skipTest, fun _ => Spec._print_spec p "yellow".data t (some "SKIPPED".data)),
     (.isTrue, fun _ => Spec._print_spec p "red".data t (some "ERROR".data))]
    errVal).getD p

/-! ### Helper lemmas -/

theorem remove_leading_eq (needle n : Str) :
    remove_leading needle n =
      if needle.isPrefixOf n then n.drop needle.length else n := by
  simp only [remove_leading]
  by_cases h : needle.isPrefixOf n
  · rw [if_pos h, if_pos]
    exact (List.prefix_iff_eq_take.1 (List.isPrefixOf_iff_prefix.1 h)).symm
  · rw [if_neg h, if_neg]
    intro hc
    exact h (List.isPrefixOf_iff_prefix.2 (List.prefix_iff_eq_take.2 hc.symm))

theorem remove_trailing_eq (needle n : Str) (hne : needle ≠ []) :
    remove_trailing needle n =
      if needle.isSuffixOf n then n.take (n.length - needle.length) else n := by
  have hlen : needle.length ≠ 0 := by simpa using hne
  simp only [remove_trailing, pyTakeLast, pyDropLast, if_neg hlen]
  by_cases h : needle.isSuffixOf n
  · rw [if_pos h, if_pos]
    exact (List.suffix_iff_eq_drop.1 (List.isSuffixOf_iff_suffix.1 h)).symm
  · rw [if_neg h, if_neg]
    intro hc
    exact h (List.isSuffixOf_iff_suffix.2 (List.suffix_iff_eq_drop.2 hc.symm))

theorem pyReplaceAux_single (a b : Char) :
    ∀ (fuel : Nat) (s : Str), s.length ≤ fuel →
      pyReplaceAux [a] [b] fuel s = s.map fun c => if c = a then b else c := by
  intro fuel
  induction fuel with
  | zero =>
    intro s hs
    have : s = [] := List.length_eq_zero.1 (Nat.le_zero.1 hs)
    subst this; rfl
  | succ m ih =>
    intro s hs
    match s with
    | [] => rfl
    | c :: rest =>
      have hr : rest.length ≤ m := by simpa using hs
      by_cases hc : c = a
      · subst hc
        simp [pyReplaceAux, List.isPrefixOf, ih rest hr]
      · have : ([a].isPrefixOf (c :: rest)) = false := by
          simp [List.isPrefixOf]
          exact fun h => absurd h.symm hc
        simp [pyReplaceAux, this, ih rest hr, hc]

theorem underscore2word_map (s : Str) :
    underscore2word s = s.map fun c => if c = '_' then ' ' else c :=
  pyReplaceAux_single '_' ' ' s.length s (Nat.le_refl _)

theorem camel2wordRest_flatMap (rest : Str) :
    camel2wordRest rest =
      (rest.map fun ch =>
        if 'A' ≤ ch && ch ≤ 'Z' then [' ', ch.toLower] else [ch]).flatten := by
  induction rest with
  | nil => rfl
  | cons c cs ih => simp only [camel2wordRest, List.map_cons, List.flatten_cons, ih]

/-! ### Concrete objects used by witnesses and counterexamples -/

/-- A nose MethodTestCase (a subclass of unittest.TestCase) whose method
has no docstring. -/
def methodTestObj : PyObj :=
  PyBase.lift { mro := [.noseMethodTestCase, .unittestTestCase],
                methodName := "test_works_fine".data }

/-- A doctest DocTestCase (a subclass of unittest.TestCase) with one
example. -/
def doctestObj : PyObj :=
  PyBase.lift { mro := [.docTestCase, .unittestTestCase],
                dtName := "sample.doctest".data,
                examples := [{ source := "2 + 3\n".data, want := "5\n".data }],
                testMethodName := "runTest".data }

/-- A module object named test_things. -/
def moduleObj : PyObj :=
  PyBase.lift { mro := [.moduleType], name := "test_things".data }

/-- An object of a type outside every dispatch table. -/
def strangeObj : PyObj := PyBase.lift { mro := [] }

/-- Exception objects for the three addError branches. -/
def depErrObj : PyObj := PyBase.lift { mro := [.deprecatedTest, .exceptionType] }

def skipErrObj : PyObj := PyBase.lift { mro := [.skipTest, .exceptionType] }

def otherErrObj : PyObj := PyBase.lift { mro := [.exceptionType] }

/-! ### The claims -/

/-- C3: for every nonempty string, camel2word keeps the first character
unchanged and rewrites every ASCII uppercase letter among the remaining
characters into a space followed by its lowercase form, leaving every other
character in place; CamelCase maps to Camel case. -/
theorem C3_camel2word_wordizes :
    (∀ (c : Char) (rest : Str),
      camel2word (c :: rest) =
        some (c :: (rest.map fun ch =>
          if 'A' ≤ ch && ch ≤ 'Z' then [' ', ch.toLower] else [ch]).flatten)) ∧
    camel2word "CamelCase".data = some "Camel case".data := by
  refine ⟨fun c rest => ?_, by decide⟩
  simp only [camel2word, camel2wordRest_flatMap]

/-- C4: underscored2spec strips a leading test_ prefix when present, then a
trailing _test suffix when present, replaces underscores with spaces, and
rewrites the four contractions in order by plain replacement; a name with
neither prefix nor suffix is left unstripped. -/
theorem C4_underscored2spec_pipeline :
    (∀ n : Str, remove_leading "test_".data n =
        if "test_".data.isPrefixOf n then n.drop 5 else n) ∧
    (∀ n : Str, remove_trailing "_test".data n =
        if "_test".data.isSuffixOf n then n.take (n.length - 5) else n) ∧
    (∀ n : Str, underscore2word n = n.map fun c => if c = '_' then ' ' else c) ∧
    (∀ n : Str, underscored2spec n =
        complete_english (underscore2word (remove_trailing "_test".data
          (remove_leading "test_".data n)))) ∧
    (∀ n : Str, complete_english n =
        pyReplace "wasnt".data "wasn\x27t".data (pyReplace "wont".data "won\x27t".data
          (pyReplace "doesnt".data "doesn\x27t".data
            (pyReplace "dont".data "don\x27t".data n)))) ∧
    (∀ n : Str, "test_".data.isPrefixOf n = false → "_test".data.isSuffixOf n = false →
        remove_trailing "_test".data (remove_leading "test_".data n) = n) := by
  refine ⟨fun n => ?_, fun n => ?_, underscore2word_map,
    fun n => rfl, fun n => rfl, fun n h1 h2 => ?_⟩
  · exact remove_leading_eq "test_".data n
  · exact remove_trailing_eq "_test".data n (by decide)
  · rw [remove_leading_eq, h1, if_neg (by simp),
      remove_trailing_eq _ _ (by decide), h2, if_neg (by simp)]

/-- C4 witness: a name carrying neither the test_ prefix nor the _test
suffix is left unstripped. -/
theorem C4_underscored2spec_pipeline_witness :
    "test_".data.isPrefixOf "spam".data = false ∧
    "_test".data.isSuffixOf "spam".data = false ∧
    remove_trailing "_test".data (remove_leading "test_".data "spam".data) = "spam".data :=
  ⟨by decide, by decide,
    C4_underscored2spec_pipeline.2.2.2.2.2 "spam".data (by decide) (by decide)⟩

/-- C8: camel2word fails (IndexError) exactly on the empty string, so
camelcase2spec fails on Test and TestTest, and camelcaseDescription fails
on a docstring-less class named Test. -/
theorem C8_camel2word_empty_raises :
    (∀ s : Str, camel2word s = none ↔ s = []) ∧
    camelcase2spec "Test".data = none ∧
    camelcase2spec "TestTest".data = none ∧
    camelcaseDescription (PyBase.lift { mro := [.classType], name := "Test".data }) = none := by
  refine ⟨fun s => ?_, by decide, by decide, by decide⟩
  cases s <;> simp [camel2word]

/-- C10: complete_english replaces plain substrings, not whole words: the
wont pattern fires inside wonton, inserting an apostrophe mid-word, and
each pattern fires on every one of its occurrences. -/
theorem C10_contractions_substring :
    complete_english "wonton".data = "won\x27ton".data ∧
    complete_english "dont dontcare wont".data = "don\x27t don\x27tcare won\x27t".data := by
  exact ⟨by decide, by decide⟩

/-- C2: dispatch_on_type applies the function of the first entry whose key
is True or a type the instance belongs to, ignoring later entries; in
testDescription the fixed priority order means any object that is a
doctest DocTestCase but not a nose case is described by the doctest
strategy regardless of also being a unittest.TestCase. -/
theorem C2_dispatch_first_match :
    (∀ (α : Type) (pre : List (TypeKey × (PyObj → α))) (k : TypeKey) (f : PyObj → α)
        (post : List (TypeKey × (PyObj → α))) (inst : PyObj),
        (∀ kf ∈ pre, typeMatches kf.1 inst = false) → typeMatches k inst = true →
        dispatch_on_type (pre ++ (k, f) :: post) inst = some (f inst)) ∧
    (∀ t : TestWrapper,
        isinstance t.test .noseMethodTestCase = false →
        isinstance t.test .noseFunctionTestCase = false →
        isinstance t.test .docTestCase = true →
        testDescription t = some (.gen (doctestExamplesDescription t.test))) := by
  constructor
  · intro α pre k f post inst hpre hk
    induction pre with
    | nil => simp [dispatch_on_type, hk]
    | cons kf rest ih =>
      have h1 : typeMatches kf.1 inst = false := hpre kf (List.mem_cons_self kf rest)
      have h2 : ∀ p ∈ rest, typeMatches p.1 inst = false :=
        fun p hp => hpre p (List.mem_cons_of_mem kf hp)
      simpa [dispatch_on_type, h1] using ih h2
  · intro t h1 h2 h3
    simp [testDescription, dispatch_on_type, typeMatches, h1, h2, h3]

/-- C2 witness: a concrete table where the second entry is the first match,
and a concrete doctest case (also a unittest.TestCase) described by the
doctest strategy. -/
theorem C2_dispatch_first_match_witness :
    (typeMatches (.ofType .moduleType) doctestObj = false ∧
      typeMatches (.ofType .docTestCase) doctestObj = true ∧
      dispatch_on_type
        [(.ofType .moduleType, fun _ => (0 : Nat)),
         (.ofType .docTestCase, fun _ => 1),
         (.isTrue, fun _ => 2)] doctestObj = some 1) ∧
    (isinstance doctestObj .unittestTestCase = true ∧
      testDescription ⟨doctestObj, moduleObj⟩ =
        some (.gen (doctestExamplesDescription doctestObj))) :=
  ⟨⟨by decide, by decide,
    C2_dispatch_first_match.1 Nat [(.ofType .moduleType, fun _ => (0 : Nat))]
      (.ofType .docTestCase) (fun _ => 1) [(.isTrue, fun _ => 2)] doctestObj
      (by decide) (by decide)⟩,
   ⟨by decide,
    C2_dispatch_first_match.2 ⟨doctestObj, moduleObj⟩ (by decide) (by decide) (by decide)⟩⟩

/-- C9: dispatch_on_type falls off the loop and returns None when no entry
matches, testDescription is None for a test object of an unsupported type,
and print_spec then leaves the stream unchanged. -/
theorem C9_unmatched_dispatch_none :
    (∀ (α : Type) (table : List (TypeKey × (PyObj → α))) (inst : PyObj),
        (∀ kf ∈ table, typeMatches kf.1 inst = false) →
        dispatch_on_type table inst = none) ∧
    (∀ t : TestWrapper,
        isinstance t.test .noseMethodTestCase = false →
        isinstance t.test .noseFunctionTestCase = false →
        isinstance t.test .docTestCase = false →
        isinstance t.test .unittestTestCase = false →
        testDescription t = none) ∧
    (∀ (st : StreamState) (colorized : Str → Str) (t : TestWrapper) (status : Option Str),
        testDescription t = none →
        SpecOutputStream.print_spec st colorized t status = st) := by
  refine ⟨?_, ?_, ?_⟩
  · intro α table inst h
    induction table with
    | nil => rfl
    | cons kf rest ih =>
      have h1 : typeMatches kf.1 inst = false := h kf (List.mem_cons_self kf rest)
      simpa [dispatch_on_type, h1] using
        ih fun p hp => h p (List.mem_cons_of_mem kf hp)
  · intro t h1 h2 h3 h4
    simp [testDescription, dispatch_on_type, typeMatches, h1, h2, h3, h4]
  · intro st colorized t status h
    simp [SpecOutputStream.print_spec, h]

/-- C9 witness: a concrete object of an unsupported type yields no
description, and print_spec leaves a concrete stream unchanged. -/
theorem C9_unmatched_dispatch_none_witness :
    (dispatch_on_type [(.ofType .docTestCase, fun _ => (0 : Nat))] strangeObj = none) ∧
    testDescription ⟨strangeObj, moduleObj⟩ = none ∧
    SpecOutputStream.print_spec ⟨.onS, [], [], []⟩ id ⟨strangeObj, moduleObj⟩ none =
      ⟨.onS, [], [], []⟩ :=
  ⟨C9_unmatched_dispatch_none.1 Nat [(.ofType .docTestCase, fun _ => (0 : Nat))]
      strangeObj (by decide),
   C9_unmatched_dispatch_none.2.1 ⟨strangeObj, moduleObj⟩
      (by decide) (by decide) (by decide) (by decide),
   C9_unmatched_dispatch_none.2.2 ⟨.onS, [], [], []⟩ id ⟨strangeObj, moduleObj⟩ none
      (by decide)⟩

/-- C7: with spec-color disabled the installed colorizer is the identity on
text for every color; with it enabled, in_color wraps every line of the
text, terminator included, between the ANSI escape of the color and the
reset code. -/
theorem C7_color_flag :
    (∀ (color text : Str), Spec.colorizeFn false color text = text) ∧
    (∀ (color code : Str), colorsLookup color = some code → ∀ text : Str,
        in_color color text =
          some ((pySplitlinesKeepends text).map fun line =>
            code ++ line ++ color_end).flatten ∧
        Spec.colorizeFn true color text =
          ((pySplitlinesKeepends text).map fun line => code ++ line ++ color_end).flatten) ∧
    color_end = "\x1b[1;0m".data := by
  refine ⟨fun color text => rfl, fun color code h text => ?_, rfl⟩
  constructor
  · simp [in_color, h]
  · simp [Spec.colorizeFn, in_color, h]

/-- C7 witness: the red colorizer wraps both lines of a two-line text. -/
theorem C7_color_flag_witness :
    colorsLookup "red".data = some "\x1b[1;31m".data ∧
    in_color "red".data "ab\ncd".data =
      some ((pySplitlinesKeepends "ab\ncd".data).map fun line =>
        "\x1b[1;31m".data ++ line ++ color_end).flatten :=
  ⟨by decide,
   (C7_color_flag.2.1 "red".data "\x1b[1;31m".data (by decide) "ab\ncd".data).1⟩

/-- C5: beforeTest always leaves the selected stream at the off stream;
print_text writes its text exactly once to the on stream and ends with the
off stream selected; while the off stream is selected, a write reaches
only the off stream. -/
theorem C5_deferred_switchable_output :
    (∀ (p : Spec) (t : TestWrapper) (q : Spec), Spec.beforeTest p t = some q →
        q.stream.sel = .offS) ∧
    (∀ (st : StreamState) (text : Str),
        SpecOutputStream.print_text st text =
          { st with sel := .offS, on_written := st.on_written ++ text }) ∧
    (∀ (st : StreamState) (text : Str), st.sel = .offS →
        OutputStream.write st text = { st with off_written := st.off_written ++ text }) := by
  refine ⟨?_, fun st text => rfl, ?_⟩
  · intro p t q h
    unfold Spec.beforeTest at h
    by_cases hc : some (testContext t) = p.current_context
    · rw [if_pos hc] at h
      simp only [Option.map_some', Option.some.injEq] at h
      rw [← h]
      rfl
    · rw [if_neg hc] at h
      cases hpc : Spec._print_context p (testContext t) with
      | none => rw [hpc] at h; simp at h
      | some st =>
        rw [hpc] at h
        simp only [Option.map_some', Option.some.injEq] at h
        rw [← h]
        rfl
  · intro st text h
    simp [OutputStream.write, h]

/-- C5 witness: a concrete beforeTest run ends with the off stream
selected, and a write on the off stream lands in the off stream. -/
theorem C5_deferred_switchable_output_witness :
    Spec.beforeTest
        { spec_color := false, spec_doctests := false,
          current_context := some moduleObj,
          stream := ⟨.captureS, "x".data, "y".data, "z".data⟩ }
        ⟨methodTestObj, moduleObj⟩ =
      some { spec_color := false, spec_doctests := false,
             current_context := some moduleObj,
             stream := ⟨.offS, "x".data, "y".data, "z".data⟩ } ∧
    (StreamState.mk .offS "x".data "y".data "z".data).sel = .offS ∧
    OutputStream.write ⟨.offS, [], [], []⟩ "w".data = ⟨.offS, [], "w".data, []⟩ :=
  ⟨by decide,
   C5_deferred_switchable_output.1
     { spec_color := false, spec_doctests := false,
       current_context := some moduleObj,
       stream := ⟨.captureS, "x".data, "y".data, "z".data⟩ }
     ⟨methodTestObj, moduleObj⟩
     { spec_color := false, spec_doctests := false,
       current_context := some moduleObj,
       stream := ⟨.offS, "x".data, "y".data, "z".data⟩ } (by decide),
   C5_deferred_switchable_output.2.2 ⟨.offS, [], [], []⟩ "w".data rfl⟩

/-- C1: with printing not suppressed and a nonempty string description,
addSuccess prints the specification in green with no status suffix,
addFailure prints it suffixed (FAILED) through the red colorizer, and
addError prints (DEPRECATED) in yellow for a nose DeprecatedTest,
(SKIPPED) in yellow for a nose SkipTest, and (ERROR) in red for every
other exception. -/
theorem C1_outcome_statuses (p : Spec) (t : TestWrapper) (s : Str)
    (hnd : (isinstance t.test .docTestCase && !p.spec_doctests) = false)
    (hdesc : testDescription t = some (.str s)) (hs : s.isEmpty = false) :
    (Spec.addSuccess p t).stream.on_written =
      p.stream.on_written ++
        Spec.colorizeFn p.spec_color "green".data ("- ".data ++ s) ++ "\n".data ∧
    (∀ err : PyObj, (Spec.addFailure p t err).stream.on_written =
      p.stream.on_written ++
        Spec.colorizeFn p.spec_color "red".data
          ("- ".data ++ s ++ " (".data ++ "FAILED".data ++ ")".data) ++ "\n".data) ∧
    (∀ err : PyObj, isinstance err .deprecatedTest = true →
      (Spec.addError p t err).stream.on_written =
        p.stream.on_written ++
          Spec.colorizeFn p.spec_color "yellow".data
            ("- ".data ++ s ++ " (".data ++ "DEPRECATED".data ++ ")".data) ++ "\n".data) ∧
    (∀ err : PyObj, isinstance err .deprecatedTest = false →
      isinstance err .skipTest = true →
      (Spec.addError p t err).stream.on_written =
        p.stream.on_written ++
          Spec.colorizeFn p.spec_color "yellow".data
            ("- ".data ++ s ++ " (".data ++ "SKIPPED".data ++ ")".data) ++ "\n".data) ∧
    (∀ err : PyObj, isinstance err .deprecatedTest = false →
      isinstance err .skipTest = false →
      (Spec.addError p t err).stream.on_written =
        p.stream.on_written ++
          Spec.colorizeFn p.spec_color "red".data
            ("- ".data ++ s ++ " (".data ++ "ERROR".data ++ ")".data) ++ "\n".data) := by
  refine ⟨?_, fun err => ?_, fun err hdep => ?_, fun err hdep hskip => ?_,
    fun err hdep hskip => ?_⟩
  · simp [Spec.addSuccess, Spec._print_spec, hnd,
      SpecOutputStream.print_spec, hdesc, hs, SpecOutputStream.printSpecLine,
      SpecOutputStream.print_line, SpecOutputStream.print_text,
      OutputStream.write, OutputStream.on, OutputStream.off, List.append_assoc]
  · simp [Spec.addFailure, Spec._print_spec, hnd,
      SpecOutputStream.print_spec, hdesc, hs, SpecOutputStream.printSpecLine,
      SpecOutputStream.print_line, SpecOutputStream.print_text,
      OutputStream.write, OutputStream.on, OutputStream.off, List.append_assoc]
  · simp [Spec.addError, Spec._print_spec, hnd, dispatch_on_type, typeMatches, hdep,
      SpecOutputStream.print_spec, hdesc, hs, SpecOutputStream.printSpecLine,
      SpecOutputStream.print_line, SpecOutputStream.print_text,
      OutputStream.write, OutputStream.on, OutputStream.off, List.append_assoc]
  · simp [Spec.addError, Spec._print_spec, hnd, dispatch_on_type, typeMatches, hdep, hskip,
      SpecOutputStream.print_spec, hdesc, hs, SpecOutputStream.printSpecLine,
      SpecOutputStream.print_line, SpecOutputStream.print_text,
      OutputStream.write, OutputStream.on, OutputStream.off, List.append_assoc]
  · simp [Spec.addError, Spec._print_spec, hnd, dispatch_on_type, typeMatches, hdep, hskip,
      SpecOutputStream.print_spec, hdesc, hs, SpecOutputStream.printSpecLine,
      SpecOutputStream.print_line, SpecOutputStream.print_text,
      OutputStream.write, OutputStream.on, OutputStream.off, List.append_assoc]

/-- C1 witness: the five outcome paths at a concrete nose method test. -/
theorem C1_outcome_statuses_witness :
    (isinstance (TestWrapper.mk methodTestObj moduleObj).test .docTestCase &&
      !(Spec.mk false false none ⟨.offS, [], [], []⟩).spec_doctests) = false ∧
    testDescription ⟨methodTestObj, moduleObj⟩ = some (.str "works fine".data) ∧
    "works fine".data.isEmpty = false ∧
    isinstance depErrObj .deprecatedTest = true ∧
    (Spec.addSuccess (Spec.mk false false none ⟨.offS, [], [], []⟩)
        ⟨methodTestObj, moduleObj⟩).stream.on_written =
      (Spec.mk false false none ⟨.offS, [], [], []⟩).stream.on_written ++
        Spec.colorizeFn false "green".data ("- ".data ++ "works fine".data) ++ "\n".data ∧
    (Spec.addError (Spec.mk false false none ⟨.offS, [], [], []⟩)
        ⟨methodTestObj, moduleObj⟩ depErrObj).stream.on_written =
      (Spec.mk false false none ⟨.offS, [], [], []⟩).stream.on_written ++
        Spec.colorizeFn false "yellow".data
          ("- ".data ++ "works fine".data ++ " (".data ++ "DEPRECATED".data ++ ")".data) ++
        "\n".data :=
  ⟨by decide, by decide, by decide, by decide,
   (C1_outcome_statuses (Spec.mk false false none ⟨.offS, [], [], []⟩)
     ⟨methodTestObj, moduleObj⟩ "works fine".data (by decide) (by decide) (by decide)).1,
   (C1_outcome_statuses (Spec.mk false false none ⟨.offS, [], [], []⟩)
     ⟨methodTestObj, moduleObj⟩ "works fine".data (by decide) (by decide) (by decide)).2.2.1
     depErrObj (by decide)⟩

/-- C6 counterexample: with spec-doctests off and a doctest test whose
context differs from the stored one, beforeTest updates current_context
but prints nothing to any stream, refuting that the new context
description is printed whenever the context changed. -/
theorem C6_doctest_context_not_printed :
    Spec.beforeTest (Spec.mk false false none ⟨.onS, [], [], []⟩) ⟨doctestObj, moduleObj⟩ =
      some (Spec.mk false false (some doctestObj) ⟨.offS, [], [], []⟩) ∧
    some (testContext ⟨doctestObj, moduleObj⟩) ≠
      (Spec.mk false false none (⟨.onS, [], [], []⟩ : StreamState)).current_context ∧
    (Spec.mk false false (some doctestObj)
      (⟨.offS, [], [], []⟩ : StreamState)).stream.on_written = [] ∧
    (Spec.mk false false (some doctestObj)
      (⟨.offS, [], [], []⟩ : StreamState)).stream.off_written = [] ∧
    (Spec.mk false false (some doctestObj)
      (⟨.offS, [], [], []⟩ : StreamState)).stream.capture_written = [] := by
  refine ⟨by decide, by decide, rfl, rfl, rfl⟩

/-- C6 amended: beforeTest with an unchanged context leaves the whole
state unchanged except for switching the stream selection off; with a
changed context it sets current_context to the new context and touches no
plugin field besides current_context and the stream, printing the context
description beforehand unless the context is a doctest case while doctest
support is disabled. -/
theorem C6_beforeTest_frame :
    (∀ (p : Spec) (t : TestWrapper), some (testContext t) = p.current_context →
        Spec.beforeTest p t = some { p with stream := OutputStream.off p.stream }) ∧
    (∀ (p : Spec) (t : TestWrapper) (q : Spec), Spec.beforeTest p t = some q →
        some (testContext t) ≠ p.current_context →
        q.current_context = some (testContext t) ∧ q.spec_color = p.spec_color ∧
        q.spec_doctests = p.spec_doctests ∧ q.stream.sel = .offS) ∧
    (∀ (p : Spec) (t : TestWrapper), some (testContext t) ≠ p.current_context →
        (isinstance (testContext t) .docTestCase && !p.spec_doctests) = true →
        Spec.beforeTest p t =
          some { p with current_context := some (testContext t),
                        stream := OutputStream.off p.stream }) ∧
    (∀ (p : Spec) (t : TestWrapper) (d : Str), some (testContext t) ≠ p.current_context →
        (isinstance (testContext t) .docTestCase && !p.spec_doctests) = false →
        contextDescription (testContext t) = some (some d) →
        Spec.beforeTest p t =
          some { p with current_context := some (testContext t),
                        stream := OutputStream.off
                          (SpecOutputStream.print_line p.stream ("\n".data ++ d)) }) := by
  refine ⟨?_, ?_, ?_, ?_⟩
  · intro p t h
    unfold Spec.beforeTest
    rw [if_pos h]
    rfl
  · intro p t q h hne
    unfold Spec.beforeTest at h
    rw [if_neg hne] at h
    cases hpc : Spec._print_context p (testContext t) with
    | none => rw [hpc] at h; simp at h
    | some st =>
      rw [hpc] at h
      simp only [Option.map_some', Option.some.injEq] at h
      rw [← h]
      exact ⟨rfl, rfl, rfl, rfl⟩
  · intro p t hne hg
    unfold Spec.beforeTest
    rw [if_neg hne]
    have : Spec._print_context p (testContext t) = some p.stream := by
      simp [Spec._print_context, hg]
    rw [this]
    rfl
  · intro p t d hne hg hcd
    unfold Spec.beforeTest
    rw [if_neg hne]
    have : Spec._print_context p (testContext t) =
        some (SpecOutputStream.print_line p.stream ("\n".data ++ d)) := by
      simp [Spec._print_context, hg, SpecOutputStream.print_context, hcd]
    rw [this]
    rfl

/-- C6 amended witness: an unchanged context only switches the stream off,
and a changed module context gets its heading printed and recorded. -/
theorem C6_beforeTest_frame_witness :
    some (testContext ⟨methodTestObj, moduleObj⟩) =
      (Spec.mk false false (some moduleObj) ⟨.onS, [], [], []⟩).current_context ∧
    Spec.beforeTest (Spec.mk false false (some moduleObj) ⟨.onS, [], [], []⟩)
        ⟨methodTestObj, moduleObj⟩ =
      some { Spec.mk false false (some moduleObj) ⟨.onS, [], [], []⟩ with
             stream := OutputStream.off (⟨.onS, [], [], []⟩ : StreamState) } ∧
    contextDescription (testContext ⟨methodTestObj, moduleObj⟩) =
      some (some "Things".data) ∧
    Spec.beforeTest (Spec.mk false false none ⟨.onS, [], [], []⟩)
        ⟨methodTestObj, moduleObj⟩ =
      some { Spec.mk false false none ⟨.onS, [], [], []⟩ with
             current_context := some (testContext ⟨methodTestObj, moduleObj⟩),
             stream := OutputStream.off
               (SpecOutputStream.print_line (⟨.onS, [], [], []⟩ : StreamState)
                 ("\n".data ++ "Things".data)) } :=
  ⟨by decide,
   C6_beforeTest_frame.1 (Spec.mk false false (some moduleObj) ⟨.onS, [], [], []⟩)
     ⟨methodTestObj, moduleObj⟩ (by decide),
   by decide,
   C6_beforeTest_frame.2.2.2 (Spec.mk false false none ⟨.onS, [], [], []⟩)
     ⟨methodTestObj, moduleObj⟩ "Things".data (by decide) (by decide) (by decide)⟩

end Pinocchio
